import Mathlib

/-! # Glogos genesis attestation protocol — verification development

Shallow embedding of the attestation core of `ceremony/witness.py` (with the
duplicated logic of `scripts/verify_quick.py` / `scripts/verify_full.py`):
hex/byte codecs, SHA-256, identity (zone) derivation, attestation building,
and the ordered short-circuiting attestation verifier.

Bytes are `List Nat` with every element `< 256`. SHA-256 is implemented
concretely (FIPS 180-4), so hashes of concrete inputs evaluate inside proofs.
The Ed25519 primitive (PyNaCl in the source) is an external capability; it is
modelled as an abstract record of pure functions `Ed`, with the properties the
real primitive guarantees (RFC 8032 correctness, 32-byte public keys, 64-byte
signatures) packaged as the predicate `Ed.Good`, supplied as a hypothesis and
discharged concretely on a toy instance in witnesses.
-/

namespace Glogos

/-- Byte sequences, each element intended `< 256` (Python `bytes`). -/
abbrev Bytes := List Nat

/-! ## Codec (witness.py lines 83-95) -/

/-- Big-endian encoding of `v` into exactly `n` bytes (low byte last). -/
def toBytesBE : Nat → Nat → Bytes
  | 0, _ => []
  | n + 1, v => toBytesBE n (v / 256) ++ [v % 256]

/-- Embeds `uint64_be` (witness.py line 83): `struct.pack('>Q', n)`, the 8-byte
big-endian encoding of an unsigned 64-bit integer. `struct.pack` raises on
`n ≥ 2^64`; this embedding is used at `n < 2^64` throughout. -/
def uint64_be (n : Nat) : Bytes := toBytesBE 8 n

/-- Hex character for a digit value `< 16`, lowercase (Python `bytes.hex`). -/
def hexDigitChar (n : Nat) : Char :=
  if n < 10 then Char.ofNat (48 + n) else Char.ofNat (87 + n)

/-- Two hex characters of one byte, high digit first. -/
def byteToHexChars (b : Nat) : List Char :=
  [hexDigitChar (b / 16), hexDigitChar (b % 16)]

/-- Embeds `bytes_to_hex` (witness.py line 93): lowercase hex string of a byte
sequence, two characters per byte. -/
def bytes_to_hex (bs : Bytes) : String :=
  String.mk (bs.flatMap byteToHexChars)

/-- Value of one hex character (`0-9`, `a-f`, `A-F`; Python `bytes.fromhex`
raises on anything else — this embedding is only applied to valid hex). -/
def hexDigitVal (c : Char) : Nat :=
  if 48 ≤ c.toNat ∧ c.toNat ≤ 57 then c.toNat - 48
  else if 97 ≤ c.toNat ∧ c.toNat ≤ 102 then c.toNat - 87
  else if 65 ≤ c.toNat ∧ c.toNat ≤ 70 then c.toNat - 55
  else 0

/-- Decode hex characters two at a time into bytes. -/
def hexPairsToBytes : List Char → Bytes
  | c1 :: c2 :: rest => (16 * hexDigitVal c1 + hexDigitVal c2) :: hexPairsToBytes rest
  | _ => []

/-- Embeds `hex_to_bytes` (witness.py line 88): `bytes.fromhex`. -/
def hex_to_bytes (s : String) : Bytes := hexPairsToBytes s.data

/-- UTF-8 encoding of one Unicode scalar value (Python `str.encode('utf-8')`). -/
def utf8EncodeCharNat (c : Char) : Bytes :=
  let n := c.toNat
  if n < 128 then [n]
  else if n < 2048 then [192 + n / 64, 128 + n % 64]
  else if n < 65536 then [224 + n / 4096, 128 + n / 64 % 64, 128 + n % 64]
  else [240 + n / 262144, 128 + n / 4096 % 64, 128 + n / 64 % 64, 128 + n % 64]

/-- UTF-8 bytes of a string (Python `str.encode('utf-8')`). -/
def utf8Bytes (s : String) : Bytes := s.data.flatMap utf8EncodeCharNat

/-! ## SHA-256 (FIPS 180-4; `hashlib.sha256` in the source) -/

/-- The word modulus of SHA-256, 2^32. -/
def m32 : Nat := 4294967296

/-- Right rotation of a 32-bit word. -/
def rotr (n x : Nat) : Nat := ((x >>> n) ||| (x <<< (32 - n))) % m32

/-- SHA-256 Σ0. -/
def bigSigma0 (x : Nat) : Nat := rotr 2 x ^^^ rotr 13 x ^^^ rotr 22 x

/-- SHA-256 Σ1. -/
def bigSigma1 (x : Nat) : Nat := rotr 6 x ^^^ rotr 11 x ^^^ rotr 25 x

/-- SHA-256 σ0. -/
def smallSigma0 (x : Nat) : Nat := rotr 7 x ^^^ rotr 18 x ^^^ (x >>> 3)

/-- SHA-256 σ1. -/
def smallSigma1 (x : Nat) : Nat := rotr 17 x ^^^ rotr 19 x ^^^ (x >>> 10)

/-- SHA-256 Ch, with 32-bit complement written as xor with `0xffffffff`. -/
def chFn (x y z : Nat) : Nat := (x &&& y) ^^^ ((x ^^^ 4294967295) &&& z)

/-- SHA-256 Maj. -/
def majFn (x y z : Nat) : Nat := (x &&& y) ^^^ (x &&& z) ^^^ (y &&& z)

/-- SHA-256 round constants (FIPS 180-4 section 4.2.2, written in decimal). -/
def sha256K : List Nat :=
  [1116352408, 1899447441, 3049323471, 3921009573, 961987163, 1508970993,
   2453635748, 2870763221, 3624381080, 310598401, 607225278, 1426881987,
   1925078388, 2162078206, 2614888103, 3248222580, 3835390401, 4022224774,
   264347078, 604807628, 770255983, 1249150122, 1555081692, 1996064986,
   2554220882, 2821834349, 2952996808, 3210313671, 3336571891, 3584528711,
   113926993, 338241895, 666307205, 773529912, 1294757372, 1396182291,
   1695183700, 1986661051, 2177026350, 2456956037, 2730485921, 2820302411,
   3259730800, 3345764771, 3516065817, 3600352804, 4094571909, 275423344,
   430227734, 506948616, 659060556, 883997877, 958139571, 1322822218,
   1537002063, 1747873779, 1955562222, 2024104815, 2227730452, 2361852424,
   2428436474, 2756734187, 3204031479, 3329325298]

/-- SHA-256 initial hash words (FIPS 180-4 section 5.3.3, written in decimal). -/
def sha256H0 : List Nat :=
  [1779033703, 3144134277, 1013904242, 2773480762, 1359893119, 2600822924,
   528734635, 1541459225]

/-- Big-endian 32-bit words of a byte block, four bytes per word. -/
def toWords : Bytes → List Nat
  | a :: b :: c :: d :: rest => (((a * 256 + b) * 256 + c) * 256 + d) :: toWords rest
  | _ => []

/-- Message schedule: extend the 16 block words to 64. -/
def msgSchedule (ws : List Nat) : List Nat :=
  (List.range 48).foldl
    (fun w i =>
      w ++ [(smallSigma1 (w.getD (i + 14) 0) + w.getD (i + 9) 0 +
             smallSigma0 (w.getD (i + 1) 0) + w.getD i 0) % m32])
    ws

/-- One SHA-256 round on the eight working words, for one `(k, w)` pair. -/
def compressWord (st : List Nat) (kw : Nat × Nat) : List Nat :=
  match st with
  | [a, b, c, d, e, f, g, h] =>
    let t1 := (h + bigSigma1 e + chFn e f g + kw.1 + kw.2) % m32
    let t2 := (bigSigma0 a + majFn a b c) % m32
    [(t1 + t2) % m32, a, b, c, (d + t1) % m32, e, f, g]
  | other => other

/-- Compress one 64-byte block into the running hash words. -/
def compressBlock (h : List Nat) (block : Bytes) : List Nat :=
  let w := msgSchedule (toWords block)
  let st := (sha256K.zip w).foldl compressWord h
  List.zipWith (fun x y => (x + y) % m32) h st

/-- SHA-256 padding: `0x80`, zeros to 56 mod 64, 8-byte big-endian bit length. -/
def padMsg (msg : Bytes) : Bytes :=
  msg ++ 128 :: List.replicate ((119 - msg.length % 64) % 64) 0 ++ toBytesBE 8 (8 * msg.length)

/-- Split a padded message into 64-byte blocks (fuel-driven so it reduces). -/
def toBlocks : Nat → Bytes → List Bytes
  | 0, _ => []
  | _, [] => []
  | fuel + 1, bs => bs.take 64 :: toBlocks fuel (bs.drop 64)

/-- Embeds `sha256_bytes` (witness.py line 78): SHA-256 digest as 32 bytes. -/
def sha256_bytes (data : Bytes) : Bytes :=
  let padded := padMsg data
  ((toBlocks padded.length padded).foldl compressBlock sha256H0).flatMap (toBytesBE 4)

/-- Embeds `sha256_hex` (witness.py line 71) applied to `bytes` input: hex digest. -/
def sha256_hex_of_bytes (data : Bytes) : String := bytes_to_hex (sha256_bytes data)

/-- Embeds `sha256_hex` (witness.py line 71) applied to `str` input: the string is
UTF-8 encoded, then hashed (the Python function dispatches on the type). -/
def sha256_hex (data : String) : String := sha256_hex_of_bytes (utf8Bytes data)

/-! ## String comparison and sorting (Python `sorted` over `str`)

Python compares strings lexicographically by Unicode code point; `sorted`
returns the (unique, since the order is linear) sorted permutation. -/

/-- Lexicographic strict comparison of char lists by code point,
exactly Python's `str` `<`. -/
def charListLt : List Char → List Char → Bool
  | _, [] => false
  | [], _ :: _ => true
  | a :: as, b :: bs =>
    if a.toNat < b.toNat then true
    else if b.toNat < a.toNat then false
    else charListLt as bs

/-- Python's `<` on strings. -/
def strLt (a b : String) : Bool := charListLt a.data b.data

/-- Python's `<=` on strings (total order, so `a <= b` iff not `b < a`). -/
def strLe (a b : String) : Bool := !(strLt b a)

/-- The sort relation of Python `sorted` on strings, as a `Prop`. -/
def refLe (a b : String) : Prop := strLe a b = true

instance : DecidableRel refLe := fun a b => by unfold refLe; infer_instance

/-- Embeds `sorted(refs)` (witness.py line 153, verify scripts): the sorted
permutation of the list under code-point lexicographic order. -/
def sortRefs (refs : List String) : List String := List.insertionSort refLe refs

/-- Embeds `"|".join(l)` (Python `str.join` with the refs delimiter). -/
def joinRefs : List String → String
  | [] => ""
  | [x] => x
  | x :: rest => x ++ "|" ++ joinRefs rest

/-! ## Protocol constants (witness.py lines 55-58) -/

/-- Constant `GENESIS_TIMESTAMP` (witness.py line 55). -/
def GENESIS_TIMESTAMP : Nat := 1766329380

/-- Constant `GLR` (witness.py line 56), the root anchor hex constant. -/
def GLR : String := "e3b0c44298fc1c149afbf4c8996fb92427ae41e4649b934ca495991b7852b855"

/-- Constant `DOMAIN_SEPARATOR` (witness.py line 57). -/
def DOMAIN_SEPARATOR : String := "glogos-genesis"

/-- Constant `REFS_DELIMITER` (witness.py line 58). -/
def REFS_DELIMITER : String := "|"

/-! ## The Ed25519 capability

PyNaCl's `SigningKey` / `VerifyKey` (an external primitive, not part of this
repository) modelled as an abstract record of pure byte functions: public key
from a 32-byte seed, detached signature of a message under a seed, and boolean
verification of a signature under a public key. `NACL_AVAILABLE` becomes an
`Option Ed` argument: `none` is the PyNaCl-missing deployment. -/

/-- Abstract Ed25519 primitive: `SigningKey(seed).verify_key`,
`SigningKey(seed).sign`, `VerifyKey(pk).verify` (boolean). -/
structure Ed where
  pk : Bytes → Bytes
  sign : Bytes → Bytes → Bytes
  verify : Bytes → Bytes → Bytes → Bool

/-- The facts RFC 8032 / PyNaCl guarantee about the primitive: a signature by
the keypair of a seed verifies under that seed's public key, and public keys
and signatures are genuine 32- and 64-byte sequences. -/
def Ed.Good (ed : Ed) : Prop :=
  (∀ seed msg, ed.verify (ed.pk seed) msg (ed.sign seed msg) = true) ∧
  (∀ seed, ∀ b ∈ ed.pk seed, b < 256) ∧
  (∀ seed, (ed.pk seed).length = 32) ∧
  (∀ seed msg, ∀ b ∈ ed.sign seed msg, b < 256) ∧
  (∀ seed msg, (ed.sign seed msg).length = 64)

/-! ## Zone operations (witness.py lines 102-136) -/

/-- The dict returned by `derive_genesis_zone` (witness.py lines 131-136). -/
structure ZoneInfo where
  seed : String
  private_key : String
  public_key : String
  zone_id : String
  deriving DecidableEq

/-- The pre-computed fallback zone dict (witness.py lines 112-117), returned
when PyNaCl is not available. -/
def FALLBACK_ZONE : ZoneInfo :=
  { seed := "ae958e20ef38261f13a52590ee631ca83d718ea62d03f22774affd43c01bb902"
    private_key := "ae958e20ef38261f13a52590ee631ca83d718ea62d03f22774affd43c01bb902"
    public_key := "c70b1f7e4ce8cb7f6f8f3984ff6fe8260469b6cf8f8f839f047ba64d894d4be8"
    zone_id := "db1756c17220873bcb831c2f9c197081ab0d83acf2226b819880d62ce906c010" }

/-- The body of `derive_genesis_zone` (witness.py lines 119-136) with the
module constants `GLR` and `DOMAIN_SEPARATOR` passed explicitly (spec §4.3
`deriveIdentity(publicConstant, domainLabel)`; the code reads them from
module-level constants, see `derive_genesis_zone` below):
`seed = SHA256(constant_bytes ++ utf8(domain))`, Ed25519 keypair from seed,
`zone_id = SHA256(public_key)`. -/
def derive_zone (ed : Ed) (glrHex domainLabel : String) : ZoneInfo :=
  let seed := sha256_bytes (hex_to_bytes glrHex ++ utf8Bytes domainLabel)
  let public_key_bytes := ed.pk seed
  { seed := bytes_to_hex seed
    private_key := bytes_to_hex seed
    public_key := bytes_to_hex public_key_bytes
    zone_id := sha256_hex_of_bytes public_key_bytes }

/-- Embeds `derive_genesis_zone` (witness.py lines 102-136): pre-computed fallback
when PyNaCl is absent, otherwise the derivation from `GLR` and
`DOMAIN_SEPARATOR`. -/
def derive_genesis_zone : Option Ed → ZoneInfo
  | none => FALLBACK_ZONE
  | some ed => derive_zone ed GLR DOMAIN_SEPARATOR

/-! ## Attestation operations (witness.py lines 143-334) -/

/-- Embeds `compute_refs_hash` (witness.py lines 143-155): `GLR` for an empty list,
else the hex SHA-256 of the sorted refs joined with `"|"`. -/
def compute_refs_hash (refs : List String) : String :=
  if refs = [] then GLR
  else sha256_hex (joinRefs (sortRefs refs))

/-- The 104-byte id preimage (witness.py lines 165-170):
`zone ‖ subject ‖ canon ‖ BE64(time)` as bytes. -/
def idPayload (zone subject canon : String) (time : Nat) : Bytes :=
  hex_to_bytes zone ++ hex_to_bytes subject ++ hex_to_bytes canon ++ uint64_be time

/-- Embeds `compute_attestation_id` (witness.py lines 158-171). -/
def compute_attestation_id (zone subject canon : String) (time : Nat) : String :=
  sha256_hex_of_bytes (idPayload zone subject canon time)

/-- Embeds `build_signature_input` (witness.py lines 174-193):
`id ‖ subject ‖ BE64(time) ‖ refs_hash ‖ canon` as bytes. -/
def build_signature_input (attestation_id subject : String) (time : Nat)
    (refs_hash canon : String) : Bytes :=
  hex_to_bytes attestation_id ++ hex_to_bytes subject ++ uint64_be time ++
    hex_to_bytes refs_hash ++ hex_to_bytes canon

/-- Errors raised by the ceremony script; `SigningUnavailable` is the
`RuntimeError("PyNaCl required ...")` of witness.py lines 199 and 211. -/
inductive CeremonyError where
  | SigningUnavailable
  deriving DecidableEq

/-- Embeds `sign_message` (witness.py lines 196-205): raises when PyNaCl is missing,
else the hex Ed25519 signature of the message under the seed. -/
def sign_message (edOpt : Option Ed) (message : Bytes) (private_key_hex : String) :
    Except CeremonyError String :=
  match edOpt with
  | none => .error .SigningUnavailable
  | some ed => .ok (bytes_to_hex (ed.sign (hex_to_bytes private_key_hex) message))

/-- Embeds `verify_signature` (witness.py lines 208-220): raises when PyNaCl is
missing, else boolean verification of the hex signature under the hex public
key (the `try/except` around decoding cannot fire in this embedding because
`hex_to_bytes` is total). -/
def verify_signature (edOpt : Option Ed) (message : Bytes)
    (signature_hex public_key_hex : String) : Except CeremonyError Bool :=
  match edOpt with
  | none => .error .SigningUnavailable
  | some ed => .ok (ed.verify (hex_to_bytes public_key_hex) message (hex_to_bytes signature_hex))

/-- The attestation dict (witness.py lines 256-264). -/
structure Attestation where
  id : String
  zone : String
  subject : String
  canon : String
  time : Nat
  refs : List String
  proof : String
  deriving DecidableEq

/-- The pre-computed genesis proof (witness.py line 254), substituted by
`create_genesis_attestation` when PyNaCl is missing. -/
def PRECOMPUTED_PROOF : String :=
  "9a06e9a971416bc167ce0edeb66961f1a15fac31296fb6add213e64fbb0b5172283bbb044fc5808794d2b1b42cb23b7dc8072e568cee3eb8c438294fe78b8008"

/-- The body of `create_genesis_attestation` (witness.py lines 223-264) with
the fixed genesis statement (subject text, canon label, time, refs) passed
explicitly, in the signing-capable mode (spec §4.4 `build`):
subject and canon are hashed labels, then id, refs hash, signature input and
Ed25519 proof exactly as the code computes them. -/
def build_attestation (ed : Ed) (zone : ZoneInfo) (subjectText canonLabel : String)
    (time : Nat) (refs : List String) : Attestation :=
  let subject := sha256_hex subjectText
  let canon := sha256_hex canonLabel
  let attestation_id := compute_attestation_id zone.zone_id subject canon time
  let refs_hash := compute_refs_hash refs
  let sign_input := build_signature_input attestation_id subject time refs_hash canon
  let proof := bytes_to_hex (ed.sign (hex_to_bytes zone.private_key) sign_input)
  { id := attestation_id, zone := zone.zone_id, subject := subject, canon := canon
    time := time, refs := refs, proof := proof }

/-- Embeds `create_genesis_attestation` (witness.py lines 223-264): the genesis
statement is fixed (subject `"From nothing, truth emerges"`, canon
`"raw:sha256:1.0"`, time `GENESIS_TIMESTAMP`, refs `[GLR]`); the proof is an
Ed25519 signature when PyNaCl is present and the pre-computed constant
otherwise. The `Except` result records that the function itself never raises:
`sign_message` is only invoked on the capability-present branch. -/
def create_genesis_attestation (edOpt : Option Ed) (zone : ZoneInfo) :
    Except CeremonyError Attestation :=
  let subject := sha256_hex "From nothing, truth emerges"
  let canon := sha256_hex "raw:sha256:1.0"
  let refs := [GLR]
  let attestation_id := compute_attestation_id zone.zone_id subject canon GENESIS_TIMESTAMP
  let refs_hash := compute_refs_hash refs
  let sign_input := build_signature_input attestation_id subject GENESIS_TIMESTAMP refs_hash canon
  match edOpt with
  | some ed => do
    let proof ← sign_message (some ed) sign_input zone.private_key
    pure { id := attestation_id, zone := zone.zone_id, subject := subject, canon := canon
           time := GENESIS_TIMESTAMP, refs := refs, proof := proof }
  | none =>
    pure { id := attestation_id, zone := zone.zone_id, subject := subject, canon := canon
           time := GENESIS_TIMESTAMP, refs := refs, proof := PRECOMPUTED_PROOF }

/-- One logged step outcome of the verifier (witness.py `steps.append` dicts;
`expected`/`actual`/`note` are present only on the steps that set them). -/
structure StepOutcome where
  name : String
  passed : Bool
  expected : Option String
  actual : Option String
  note : Option String
  deriving DecidableEq

/-- The verifier's result dict (witness.py lines 284, 302, 332, 334). -/
structure VerifyResult where
  valid : Bool
  error : Option String
  steps : List StepOutcome
  deriving DecidableEq

/-- Embeds `verify_attestation` (witness.py lines 267-334): zone check, id check,
signature check, in order, short-circuiting; when PyNaCl is missing the
signature check is skipped and counted as passed. -/
def verify_attestation (edOpt : Option Ed) (att : Attestation) (public_key : String) :
    VerifyResult :=
  let computed_zone := sha256_hex_of_bytes (hex_to_bytes public_key)
  let zone_valid := computed_zone == att.zone
  let step1 : StepOutcome :=
    { name := "Zone verification", passed := zone_valid
      expected := some att.zone, actual := some computed_zone, note := none }
  if zone_valid then
    let computed_id := compute_attestation_id att.zone att.subject att.canon att.time
    let id_valid := computed_id == att.id
    let step2 : StepOutcome :=
      { name := "Attestation ID verification", passed := id_valid
        expected := some att.id, actual := some computed_id, note := none }
    if id_valid then
      let refs_hash := compute_refs_hash att.refs
      let sign_input := build_signature_input att.id att.subject att.time refs_hash att.canon
      match edOpt with
      | some ed =>
        let sig_valid := ed.verify (hex_to_bytes public_key) sign_input (hex_to_bytes att.proof)
        let step3 : StepOutcome :=
          { name := "Ed25519 signature verification", passed := sig_valid
            expected := none, actual := none, note := none }
        if sig_valid then { valid := true, error := none, steps := [step1, step2, step3] }
        else { valid := false, error := some "Invalid signature", steps := [step1, step2, step3] }
      | none =>
        let step3 : StepOutcome :=
          { name := "Signature verification", passed := true
            expected := none, actual := none, note := some "Skipped (PyNaCl not available)" }
        { valid := true, error := none, steps := [step1, step2, step3] }
    else { valid := false, error := some "Attestation ID mismatch", steps := [step1, step2] }
  else { valid := false, error := some "Zone ID mismatch", steps := [step1] }

/-! ## The persisted artifact (witness.py lines 678-683, verify_full.py 25-30) -/

/-- The persisted artifact record: the attestation plus an attached witness
bundle of arbitrary shape (drand / NIST / Bitcoin readings, time notations —
opaque to the core). -/
structure ArtifactRec (W : Type) where
  attestation : Attestation
  witnesses : W

/-- The verification entry point on a loaded artifact (witness.py lines
401 and 435, verify_full.py line 28): extract `artifact['attestation']` and
run `verify_attestation` on it — the witness bundle is never consulted. -/
def verify_artifact_attestation {W : Type} (edOpt : Option Ed)
    (artifact : ArtifactRec W) (public_key : String) : VerifyResult :=
  verify_attestation edOpt artifact.attestation public_key

/-! ## Bit flipping (for the tamper-detection claims) -/

/-- Flip bit `i` (little-endian within byte `i / 8`) of a byte sequence. -/
def flipBit (bs : Bytes) (i : Nat) : Bytes :=
  bs.set (i / 8) ((bs.getD (i / 8) 0) ^^^ (1 <<< (i % 8)))

/-- Flip bit `i` of the byte sequence denoted by a hex string. -/
def flipHex (s : String) (i : Nat) : String :=
  bytes_to_hex (flipBit (hex_to_bytes s) i)

/-- The zone condition of verifier step 1 (witness.py lines 274-275):
`SHA256(public_key_bytes) == attestation['zone']`. -/
def zone_check (att : Attestation) (public_key : String) : Bool :=
  sha256_hex_of_bytes (hex_to_bytes public_key) == att.zone

/-- The id condition of verifier step 2 (witness.py lines 287-293):
the recomputed attestation id equals the stored one. -/
def id_check (att : Attestation) : Bool :=
  compute_attestation_id att.zone att.subject att.canon att.time == att.id

/-- The signature condition of verifier step 3 (witness.py lines 305-315):
Ed25519 verification of the stored proof over the rebuilt signature input. -/
def sig_check (ed : Ed) (att : Attestation) (public_key : String) : Bool :=
  ed.verify (hex_to_bytes public_key)
    (build_signature_input att.id att.subject att.time (compute_refs_hash att.refs) att.canon)
    (hex_to_bytes att.proof)

/-! ## Concrete instances for witnesses -/

/-- A toy signing primitive satisfying `Ed.Good`: the public key is 32 zero
bytes, every signature is 64 zero bytes, and verification accepts exactly
that signature. Used to evaluate the protocol concretely in witnesses. -/
def edW : Ed :=
  { pk := fun _ => List.replicate 32 0
    sign := fun _ _ => List.replicate 64 0
    verify := fun _ _ sig => sig == List.replicate 64 0 }

/-- The zone derived with the toy primitive. -/
def zW : ZoneInfo := derive_zone edW GLR DOMAIN_SEPARATOR

/-- The genesis attestation built with the toy primitive. -/
def aW : Attestation :=
  build_attestation edW zW "From nothing, truth emerges" "raw:sha256:1.0"
    GENESIS_TIMESTAMP [GLR]

/-! ## Codec lemmas -/

theorem length_toBytesBE (n v : Nat) : (toBytesBE n v).length = n := by
  induction n generalizing v with
  | zero => rfl
  | succ n ih => simp [toBytesBE, ih]

theorem mem_toBytesBE_lt (n v : Nat) : ∀ b ∈ toBytesBE n v, b < 256 := by
  induction n generalizing v with
  | zero => simp [toBytesBE]
  | succ n ih =>
    intro b hb
    simp only [toBytesBE, List.mem_append, List.mem_singleton] at hb
    rcases hb with hb | hb
    · exact ih _ b hb
    · omega

theorem toBytesBE_inj {n v w : Nat} (hv : v < 256 ^ n) (hw : w < 256 ^ n)
    (h : toBytesBE n v = toBytesBE n w) : v = w := by
  induction n generalizing v w with
  | zero => simp [pow_zero] at hv hw; omega
  | succ n ih =>
    simp only [toBytesBE] at h
    have hlen : (toBytesBE n (v / 256)).length = (toBytesBE n (w / 256)).length := by
      simp [length_toBytesBE]
    obtain ⟨h1, h2⟩ := List.append_inj h hlen
    have hv' : v / 256 < 256 ^ n := by
      rw [pow_succ, mul_comm] at hv
      exact Nat.div_lt_of_lt_mul hv
    have hw' : w / 256 < 256 ^ n := by
      rw [pow_succ, mul_comm] at hw
      exact Nat.div_lt_of_lt_mul hw
    have hd := ih hv' hw' h1
    have hm : v % 256 = w % 256 := by simpa using h2
    omega

theorem hexVal_hexChar {n : Nat} (h : n < 16) : hexDigitVal (hexDigitChar n) = n := by
  interval_cases n <;> decide

theorem hex_roundtrip (bs : Bytes) (h : ∀ b ∈ bs, b < 256) :
    hex_to_bytes (bytes_to_hex bs) = bs := by
  induction bs with
  | nil => rfl
  | cons b rest ih =>
    have hb : b < 256 := h b (List.mem_cons_self b rest)
    have hdiv : b / 16 < 16 := by omega
    have hmod : b % 16 < 16 := by omega
    show hexPairsToBytes ((b :: rest).flatMap byteToHexChars) = b :: rest
    rw [List.flatMap_cons]
    show hexPairsToBytes
        (hexDigitChar (b / 16) :: hexDigitChar (b % 16) :: rest.flatMap byteToHexChars) = b :: rest
    rw [hexPairsToBytes, hexVal_hexChar hdiv, hexVal_hexChar hmod]
    have htail : hexPairsToBytes (rest.flatMap byteToHexChars) = rest :=
      ih (fun x hx => h x (List.mem_cons_of_mem b hx))
    rw [htail]
    congr 1
    omega

theorem bytes_to_hex_inj {a b : Bytes} (ha : ∀ x ∈ a, x < 256) (hb : ∀ x ∈ b, x < 256)
    (h : bytes_to_hex a = bytes_to_hex b) : a = b := by
  rw [← hex_roundtrip a ha, ← hex_roundtrip b hb, h]

/-! ## SHA-256 shape lemmas -/

theorem compressWord_length (st : List Nat) (kw : Nat × Nat) :
    (compressWord st kw).length = st.length := by
  unfold compressWord
  split <;> simp

theorem foldl_compressWord_length (l : List (Nat × Nat)) (st : List Nat) :
    (l.foldl compressWord st).length = st.length := by
  induction l generalizing st with
  | nil => rfl
  | cons p l ih => rw [List.foldl_cons, ih, compressWord_length]

theorem compressBlock_length (h : List Nat) (block : Bytes) :
    (compressBlock h block).length = h.length := by
  unfold compressBlock
  rw [List.length_zipWith, foldl_compressWord_length]
  omega

theorem foldl_compressBlock_length (blocks : List Bytes) (st : List Nat) :
    (blocks.foldl compressBlock st).length = st.length := by
  induction blocks generalizing st with
  | nil => rfl
  | cons b blocks ih => rw [List.foldl_cons, ih, compressBlock_length]

theorem sha256_bytes_length (data : Bytes) : (sha256_bytes data).length = 32 := by
  have hflat : ∀ l : List Nat, (l.flatMap (toBytesBE 4)).length = 4 * l.length := by
    intro l
    induction l with
    | nil => rfl
    | cons x l ih => simp [List.flatMap_cons, length_toBytesBE, ih]; ring
  show (((toBlocks (padMsg data).length (padMsg data)).foldl compressBlock sha256H0).flatMap
    (toBytesBE 4)).length = 32
  rw [hflat, foldl_compressBlock_length]
  rfl

theorem sha256_bytes_lt (data : Bytes) : ∀ b ∈ sha256_bytes data, b < 256 := by
  intro b hb
  unfold sha256_bytes at hb
  simp only [List.mem_flatMap] at hb
  obtain ⟨w, _, hw⟩ := hb
  exact mem_toBytesBE_lt 4 w b hw

theorem sha256_hex_roundtrip (data : Bytes) :
    hex_to_bytes (sha256_hex_of_bytes data) = sha256_bytes data :=
  hex_roundtrip _ (sha256_bytes_lt data)

theorem sha256_hex_of_bytes_inj {a b : Bytes} (h : sha256_bytes a = sha256_bytes b → a = b)
    (hh : sha256_hex_of_bytes a = sha256_hex_of_bytes b) : a = b := by
  apply h
  exact bytes_to_hex_inj (sha256_bytes_lt a) (sha256_bytes_lt b) hh

/-! ## Order facts about the string comparison -/

theorem charListLt_irrefl (l : List Char) : charListLt l l = false := by
  induction l with
  | nil => rfl
  | cons x xs ih =>
    simp only [charListLt]
    split_ifs with h1
    · omega
    · exact ih

theorem charListLt_trans :
    ∀ (a b c : List Char), charListLt a b = true → charListLt b c = true →
      charListLt a c = true := by
  intro a
  induction a with
  | nil =>
    intro b c hab hbc
    cases b with
    | nil => simp [charListLt] at hab
    | cons y ys =>
      cases c with
      | nil => simp [charListLt] at hbc
      | cons z zs => rfl
  | cons x xs ih =>
    intro b c hab hbc
    cases b with
    | nil => simp [charListLt] at hab
    | cons y ys =>
      cases c with
      | nil => simp [charListLt] at hbc
      | cons z zs =>
        simp only [charListLt] at hab hbc ⊢
        split_ifs at hab hbc ⊢ <;>
          first
            | rfl
            | omega
            | exact ih ys zs hab hbc

theorem charListLt_eq_of_not :
    ∀ (a b : List Char), charListLt a b = false → charListLt b a = false → a = b := by
  intro a
  induction a with
  | nil =>
    intro b hab _
    cases b with
    | nil => rfl
    | cons y ys => simp [charListLt] at hab
  | cons x xs ih =>
    intro b hab hba
    cases b with
    | nil => simp [charListLt] at hba
    | cons y ys =>
      simp only [charListLt] at hab hba
      split_ifs at hab hba with h1 h2 <;> try simp at hab hba
      have hxy : x = y := by
        have hn : x.toNat = y.toNat := by omega
        have := congrArg Char.ofNat hn
        rwa [Char.ofNat_toNat, Char.ofNat_toNat] at this
      rw [hxy, ih ys hab hba]

theorem charListLt_asymm {a b : List Char} (hab : charListLt a b = true) :
    charListLt b a = false := by
  cases h : charListLt b a with
  | false => rfl
  | true =>
    have := charListLt_trans a b a hab h
    rw [charListLt_irrefl] at this
    exact absurd this (by simp)

instance : IsTotal String refLe := by
  constructor
  intro a b
  unfold refLe strLe strLt
  cases h : charListLt b.data a.data with
  | false => exact Or.inl (by simp [h])
  | true => exact Or.inr (by simp [charListLt_asymm h])

instance : IsTrans String refLe := by
  constructor
  intro a b c hab hbc
  unfold refLe strLe strLt at *
  simp only [Bool.not_eq_true'] at hab hbc ⊢
  cases hca : charListLt c.data a.data with
  | false => rfl
  | true =>
    exfalso
    cases hbcd : charListLt b.data c.data with
    | true =>
      have := charListLt_trans b.data c.data a.data hbcd hca
      rw [hab] at this
      exact absurd this (by simp)
    | false =>
      have := charListLt_eq_of_not c.data b.data hbc hbcd
      rw [this] at hca
      rw [hab] at hca
      exact absurd hca (by simp)

instance : IsAntisymm String refLe := by
  constructor
  intro a b hab hba
  unfold refLe strLe strLt at hab hba
  simp only [Bool.not_eq_true'] at hab hba
  exact String.ext (charListLt_eq_of_not a.data b.data hba hab)

/-! ## Sorting facts -/

theorem sortRefs_perm (l : List String) : (sortRefs l).Perm l :=
  List.perm_insertionSort refLe l

theorem sortRefs_sorted (l : List String) : List.Sorted refLe (sortRefs l) :=
  List.sorted_insertionSort refLe l

/-- The sorted permutation of a list under a linear order is unique, so
`sortRefs` agrees with any sorted rearrangement (this is what makes
`List.insertionSort` a faithful model of Python's `sorted`). -/
theorem sortRefs_eq_of_sorted_perm {refs l : List String}
    (hp : l.Perm refs) (hs : List.Sorted refLe l) : sortRefs refs = l :=
  List.eq_of_perm_of_sorted ((sortRefs_perm refs).trans hp.symm) (sortRefs_sorted refs) hs

theorem sortRefs_count (l : List String) (r : String) :
    (sortRefs l).count r = l.count r :=
  (sortRefs_perm l).count_eq r

theorem sortRefs_pair_self (r : String) : sortRefs [r, r] = [r, r] := by
  unfold sortRefs
  simp only [List.insertionSort, List.orderedInsert]
  split_ifs <;> rfl

/-! ## Bit flipping and integer encoding facts -/

theorem xor_ne_self {b k : Nat} (hk : k ≠ 0) : b ^^^ k ≠ b := by
  intro h
  apply hk
  calc k = b ^^^ b ^^^ k := by rw [Nat.xor_self, Nat.zero_xor]
    _ = b ^^^ (b ^^^ k) := by rw [Nat.xor_assoc]
    _ = b ^^^ b := by rw [h]
    _ = 0 := Nat.xor_self b

theorem set_ne_of_ne :
    ∀ (bs : Bytes) (n x : Nat), n < bs.length → x ≠ bs.getD n 0 → bs.set n x ≠ bs := by
  intro bs
  induction bs with
  | nil => intro n x hn _; simp at hn
  | cons b rest ih =>
    intro n x hn hx
    cases n with
    | zero =>
      intro h
      simp only [List.set] at h
      exact hx (by simpa using congrArg (fun l => l.getD 0 0) h)
    | succ n =>
      intro h
      simp only [List.set, List.cons.injEq] at h
      exact ih n x (by simpa using hn) (by simpa using hx) h.2

theorem flipBit_ne (bs : Bytes) (i : Nat) (h : i / 8 < bs.length) : flipBit bs i ≠ bs := by
  unfold flipBit
  apply set_ne_of_ne bs (i / 8) _ h
  apply xor_ne_self
  rw [Nat.shiftLeft_eq, one_mul]
  have := Nat.pos_pow_of_pos (i % 8) (show 0 < 2 by omega)
  omega

theorem flipBit_lt (bs : Bytes) (i : Nat) (hb : ∀ b ∈ bs, b < 256) :
    ∀ b ∈ flipBit bs i, b < 256 := by
  intro b hmem
  unfold flipBit at hmem
  rcases List.mem_or_eq_of_mem_set hmem with h | h
  · exact hb b h
  · subst h
    have h1 : bs.getD (i / 8) 0 < 256 := by
      rcases Nat.lt_or_ge (i / 8) bs.length with hlt | hge
      · rw [List.getD_eq_getElem?_getD, List.getElem?_eq_getElem hlt]
        exact hb _ (List.getElem_mem hlt)
      · rw [List.getD_eq_getElem?_getD, List.getElem?_eq_none hge]
        simp
    have h2 : (1 <<< (i % 8)) < 256 := by
      rw [Nat.shiftLeft_eq, one_mul]
      calc 2 ^ (i % 8) ≤ 2 ^ 7 := Nat.pow_le_pow_right (by omega) (by omega)
        _ < 256 := by omega
    calc bs.getD (i / 8) 0 ^^^ 1 <<< (i % 8) < 2 ^ 8 :=
          Nat.xor_lt_two_pow (by omega) (by omega)
      _ = 256 := by omega

theorem flipBit_length (bs : Bytes) (i : Nat) : (flipBit bs i).length = bs.length :=
  List.length_set bs _ _

theorem shiftLeft_one_ne_zero (j : Nat) : (1 <<< j) ≠ 0 := by
  rw [Nat.shiftLeft_eq, one_mul]
  have := Nat.pos_pow_of_pos j (show 0 < 2 by omega)
  omega

theorem uint64_be_inj {t u : Nat} (ht : t < 2 ^ 64) (hu : u < 2 ^ 64)
    (h : uint64_be t = uint64_be u) : t = u := by
  have hpow : (256 : Nat) ^ 8 = 2 ^ 64 := by norm_num
  exact toBytesBE_inj (by rw [hpow]; exact ht) (by rw [hpow]; exact hu) h

/-! ## Decoded field lengths -/

theorem hex_refs_hash_spec (refs : List String) :
    (hex_to_bytes (compute_refs_hash refs)).length = 32 ∧
      ∀ b ∈ hex_to_bytes (compute_refs_hash refs), b < 256 := by
  unfold compute_refs_hash
  split_ifs with h
  · exact ⟨by decide, by decide⟩
  · unfold sha256_hex
    rw [sha256_hex_roundtrip]
    exact ⟨sha256_bytes_length _, sha256_bytes_lt _⟩

theorem hex_sha256_hex_length (s : String) : (hex_to_bytes (sha256_hex s)).length = 32 := by
  unfold sha256_hex
  rw [sha256_hex_roundtrip]
  exact sha256_bytes_length _

/-! ## Verifier characterization -/

theorem verify_attestation_some_valid (ed : Ed) (att : Attestation) (pk : String) :
    (verify_attestation (some ed) att pk).valid =
      (zone_check att pk && id_check att && sig_check ed att pk) := by
  unfold verify_attestation zone_check id_check sig_check
  cases h1 : (sha256_hex_of_bytes (hex_to_bytes pk) == att.zone) <;>
  cases h2 : (compute_attestation_id att.zone att.subject att.canon att.time == att.id) <;>
  cases h3 : ed.verify (hex_to_bytes pk)
      (build_signature_input att.id att.subject att.time (compute_refs_hash att.refs) att.canon)
      (hex_to_bytes att.proof) <;>
  simp [h1, h2, h3]

theorem verify_attestation_some_error (ed : Ed) (att : Attestation) (pk : String) :
    (verify_attestation (some ed) att pk).error =
      (if zone_check att pk = false then some "Zone ID mismatch"
       else if id_check att = false then some "Attestation ID mismatch"
       else if sig_check ed att pk = false then some "Invalid signature"
       else none) := by
  unfold verify_attestation zone_check id_check sig_check
  cases h1 : (sha256_hex_of_bytes (hex_to_bytes pk) == att.zone) <;>
  cases h2 : (compute_attestation_id att.zone att.subject att.canon att.time == att.id) <;>
  cases h3 : ed.verify (hex_to_bytes pk)
      (build_signature_input att.id att.subject att.time (compute_refs_hash att.refs) att.canon)
      (hex_to_bytes att.proof) <;>
  simp [h1, h2, h3]

theorem verify_attestation_some_passed (ed : Ed) (att : Attestation) (pk : String) :
    ((verify_attestation (some ed) att pk).steps.map StepOutcome.passed) =
      (if zone_check att pk = false then [false]
       else if id_check att = false then [true, false]
       else [true, true, sig_check ed att pk]) := by
  unfold verify_attestation zone_check id_check sig_check
  cases h1 : (sha256_hex_of_bytes (hex_to_bytes pk) == att.zone) <;>
  cases h2 : (compute_attestation_id att.zone att.subject att.canon att.time == att.id) <;>
  cases h3 : ed.verify (hex_to_bytes pk)
      (build_signature_input att.id att.subject att.time (compute_refs_hash att.refs) att.canon)
      (hex_to_bytes att.proof) <;>
  simp [h1, h2, h3]

/-! ## The three checks succeed on a built attestation -/

theorem create_genesis_some (ed : Ed) (zone : ZoneInfo) :
    create_genesis_attestation (some ed) zone =
      .ok (build_attestation ed zone "From nothing, truth emerges" "raw:sha256:1.0"
        GENESIS_TIMESTAMP [GLR]) := rfl

theorem checks_of_build (ed : Ed) (hG : Ed.Good ed) (glr dom st cl : String) (t : Nat)
    (refs : List String) :
    zone_check (build_attestation ed (derive_zone ed glr dom) st cl t refs)
        (derive_zone ed glr dom).public_key = true ∧
      id_check (build_attestation ed (derive_zone ed glr dom) st cl t refs) = true ∧
      sig_check ed (build_attestation ed (derive_zone ed glr dom) st cl t refs)
        (derive_zone ed glr dom).public_key = true := by
  obtain ⟨hcorr, hpk_lt, _, hsig_lt, _⟩ := hG
  set seed := sha256_bytes (hex_to_bytes glr ++ utf8Bytes dom) with hseed
  have hpk_rt : hex_to_bytes (bytes_to_hex (ed.pk seed)) = ed.pk seed :=
    hex_roundtrip _ (hpk_lt seed)
  have hseed_rt : hex_to_bytes (bytes_to_hex seed) = seed :=
    hex_roundtrip _ (sha256_bytes_lt _)
  refine ⟨?_, ?_, ?_⟩
  · show (sha256_hex_of_bytes (hex_to_bytes (bytes_to_hex (ed.pk seed))) ==
      sha256_hex_of_bytes (ed.pk seed)) = true
    rw [hpk_rt]
    exact beq_self_eq_true _
  · exact beq_self_eq_true _
  · show ed.verify (hex_to_bytes (bytes_to_hex (ed.pk seed)))
      (build_signature_input _ _ _ _ _)
      (hex_to_bytes (bytes_to_hex (ed.sign (hex_to_bytes (bytes_to_hex seed)) _))) = true
    rw [hpk_rt, hseed_rt, hex_roundtrip _ (hsig_lt seed _)]
    exact hcorr seed _

/-! ## The toy primitive is good -/

theorem edW_good : Ed.Good edW := by
  refine ⟨fun seed msg => ?_, fun seed b hb => ?_, fun seed => ?_,
    fun seed msg b hb => ?_, fun seed msg => ?_⟩
  · simp [edW]
  · simp only [edW, List.mem_replicate] at hb; omega
  · simp [edW]
  · simp only [edW, List.mem_replicate] at hb; omega
  · simp [edW]

/-- Whenever the verifier reports `valid = true` (in either capability mode),
the stored id equals the recomputation from the attestation's own fields. -/
theorem id_eq_of_valid (edOpt : Option Ed) (att : Attestation) (pk : String)
    (h : (verify_attestation edOpt att pk).valid = true) :
    compute_attestation_id att.zone att.subject att.canon att.time = att.id := by
  cases hb2 : (compute_attestation_id att.zone att.subject att.canon att.time == att.id) with
  | true => exact eq_of_beq hb2
  | false =>
    exfalso
    cases hb1 : (sha256_hex_of_bytes (hex_to_bytes pk) == att.zone) with
    | false => unfold verify_attestation at h; simp [hb1] at h
    | true => unfold verify_attestation at h; simp [hb1, hb2] at h

/-- Two byte sequences of genuine bytes with different contents have
different hex encodings. -/
theorem bytes_to_hex_ne {a b : Bytes} (ha : ∀ x ∈ a, x < 256) (hb : ∀ x ∈ b, x < 256)
    (h : a ≠ b) : bytes_to_hex a ≠ bytes_to_hex b :=
  fun he => h (bytes_to_hex_inj ha hb he)

/-- Shape of the verifier result when the zone check fails. -/
theorem verify_zone_mismatch (ed : Ed) (att : Attestation) (pk : String)
    (hz : zone_check att pk = false) :
    (verify_attestation (some ed) att pk).error = some "Zone ID mismatch" ∧
      (verify_attestation (some ed) att pk).valid = false ∧
      (verify_attestation (some ed) att pk).steps.length = 1 := by
  have herr := verify_attestation_some_error ed att pk
  have hval := verify_attestation_some_valid ed att pk
  have hp := verify_attestation_some_passed ed att pk
  rw [hz] at herr hval hp
  simp only [if_pos rfl, Bool.false_and] at herr hval hp
  refine ⟨herr, hval, ?_⟩
  have hlen := congrArg List.length hp
  simpa using hlen

/-- Shape of the verifier result when the zone check passes and the id check
fails. -/
theorem verify_id_mismatch (ed : Ed) (att : Attestation) (pk : String)
    (hz : zone_check att pk = true) (hid : id_check att = false) :
    (verify_attestation (some ed) att pk).error = some "Attestation ID mismatch" ∧
      (verify_attestation (some ed) att pk).valid = false ∧
      (verify_attestation (some ed) att pk).steps.length = 2 := by
  have herr := verify_attestation_some_error ed att pk
  have hval := verify_attestation_some_valid ed att pk
  have hp := verify_attestation_some_passed ed att pk
  rw [hz, hid] at herr hval hp
  simp only [Bool.true_and, Bool.false_and, Bool.and_false] at hval
  simp at herr hp
  refine ⟨herr, hval, ?_⟩
  have hlen := congrArg List.length hp
  simpa using hlen

/-- Shape of the verifier result when the zone and id checks pass: three
logged steps with the first two passed, and the outcome decided by the
signature check alone. -/
theorem verify_sig_branch (ed : Ed) (att : Attestation) (pk : String)
    (hz : zone_check att pk = true) (hid : id_check att = true) :
    ((verify_attestation (some ed) att pk).steps.map StepOutcome.passed) =
        [true, true, sig_check ed att pk] ∧
      (sig_check ed att pk = false →
        (verify_attestation (some ed) att pk).error = some "Invalid signature" ∧
          (verify_attestation (some ed) att pk).valid = false) := by
  have herr := verify_attestation_some_error ed att pk
  have hval := verify_attestation_some_valid ed att pk
  have hp := verify_attestation_some_passed ed att pk
  rw [hz, hid] at herr hval hp
  simp at hp
  refine ⟨hp, fun hs => ?_⟩
  rw [hs] at herr hval
  simp at herr hval
  exact ⟨herr, hval⟩

/-- Different decoded subject bytes give different id preimages. -/
theorem idPayload_ne_of_subject (zh s s' ch : String) (t : Nat)
    (h : hex_to_bytes s' ≠ hex_to_bytes s) :
    idPayload zh s' ch t ≠ idPayload zh s ch t := fun heq =>
  h (List.append_cancel_left (List.append_cancel_right (List.append_cancel_right heq)))

/-- Different decoded canon bytes give different id preimages. -/
theorem idPayload_ne_of_canon (zh sh c c' : String) (t : Nat)
    (h : hex_to_bytes c' ≠ hex_to_bytes c) :
    idPayload zh sh c' t ≠ idPayload zh sh c t := fun heq =>
  h (List.append_cancel_left (List.append_cancel_right heq))

/-- Different 64-bit times give different id preimages. -/
theorem idPayload_ne_of_time (zh sh ch : String) {t u : Nat}
    (ht : t < 2 ^ 64) (hu : u < 2 ^ 64) (h : u ≠ t) :
    idPayload zh sh ch u ≠ idPayload zh sh ch t := fun heq =>
  h (uint64_be_inj hu ht (List.append_cancel_left heq))

/-- Flipping a bit of a hex field (whose decoding is known) changes the
decoded bytes, and the flipped decoding is the byte-level flip. -/
theorem hex_flip_ne (s : String) (i : Nat) (bsb : Bytes)
    (hrt : hex_to_bytes s = bsb) (hlt : ∀ b ∈ bsb, b < 256) (hlen : i / 8 < bsb.length) :
    hex_to_bytes (flipHex s i) = flipBit bsb i ∧
      hex_to_bytes (flipHex s i) ≠ hex_to_bytes s := by
  have h2 : hex_to_bytes (flipHex s i) = flipBit bsb i := by
    unfold flipHex
    rw [hrt]
    exact hex_roundtrip _ (flipBit_lt _ _ hlt)
  refine ⟨h2, ?_⟩
  rw [h2, hrt]
  exact flipBit_ne bsb i hlen

/-- Xor with one bit below 64 keeps a 64-bit value 64-bit. -/
theorem xor_bit_lt {t j : Nat} (ht : t < 2 ^ 64) (hj : j < 64) :
    t ^^^ (1 <<< j) < 2 ^ 64 := by
  apply Nat.xor_lt_two_pow ht
  rw [Nat.shiftLeft_eq, one_mul]
  exact Nat.pow_lt_pow_right (by omega) hj

/-! ## Claim theorems -/

/-- C1: for every identity produced by the identity deriver and every
attestation built from it (any subject text, canon label, unsigned 64-bit
time and ref list), the verifier run with the identity's public key reports
`valid = true`. The Ed25519 capability is assumed to satisfy the properties
PyNaCl guarantees (`Ed.Good`). -/
theorem C1_build_then_verify_valid (ed : Ed) (hG : Ed.Good ed)
    (glr dom subjectText canonLabel : String) (t : Nat) (ht : t < 2 ^ 64)
    (refs : List String) :
    (verify_attestation (some ed)
      (build_attestation ed (derive_zone ed glr dom) subjectText canonLabel t refs)
      (derive_zone ed glr dom).public_key).valid = true := by
  obtain ⟨h1, h2, h3⟩ := checks_of_build ed hG glr dom subjectText canonLabel t refs
  rw [verify_attestation_some_valid, h1, h2, h3]
  rfl

/-- Witness for C1 at the genesis statement with the toy primitive. -/
theorem C1_build_then_verify_valid_witness :
    GENESIS_TIMESTAMP < 2 ^ 64 ∧
      (verify_attestation (some edW)
        (build_attestation edW (derive_zone edW GLR DOMAIN_SEPARATOR)
          "From nothing, truth emerges" "raw:sha256:1.0" GENESIS_TIMESTAMP [GLR])
        (derive_zone edW GLR DOMAIN_SEPARATOR).public_key).valid = true :=
  ⟨by decide,
    C1_build_then_verify_valid edW edW_good GLR DOMAIN_SEPARATOR
      "From nothing, truth emerges" "raw:sha256:1.0" GENESIS_TIMESTAMP (by decide) [GLR]⟩

/-- C2: the attestation identifier is the SHA-256 of
`fingerprint ‖ subject ‖ canon ‖ BE64(time)` — a 104-byte preimage — and the
builder's `id` field and the verifier's accepted `id` are exactly this
recomputation. -/
theorem C2_attestation_id_layout (zb sb cb : Bytes) (t : Nat)
    (hzl : zb.length = 32) (hzb : ∀ b ∈ zb, b < 256)
    (hsl : sb.length = 32) (hsb : ∀ b ∈ sb, b < 256)
    (hcl : cb.length = 32) (hcb : ∀ b ∈ cb, b < 256)
    (ht : t < 2 ^ 64) :
    (zb ++ sb ++ cb ++ uint64_be t).length = 104 ∧
      compute_attestation_id (bytes_to_hex zb) (bytes_to_hex sb) (bytes_to_hex cb) t =
        bytes_to_hex (sha256_bytes (zb ++ sb ++ cb ++ uint64_be t)) ∧
      (∀ ed zone subjectText canonLabel refs,
        (build_attestation ed zone subjectText canonLabel t refs).id =
          compute_attestation_id zone.zone_id (sha256_hex subjectText)
            (sha256_hex canonLabel) t) ∧
      (∀ edOpt att pk, (verify_attestation edOpt att pk).valid = true →
        compute_attestation_id att.zone att.subject att.canon att.time = att.id) := by
  refine ⟨?_, ?_, fun _ _ _ _ _ => rfl, id_eq_of_valid⟩
  · simp only [List.length_append, hzl, hsl, hcl, uint64_be, length_toBytesBE]
  · unfold compute_attestation_id idPayload sha256_hex_of_bytes
    rw [hex_roundtrip zb hzb, hex_roundtrip sb hsb, hex_roundtrip cb hcb]

/-- Witness for C2 on concrete 32-byte fields. -/
theorem C2_attestation_id_layout_witness :
    (List.replicate 32 0 ++ List.replicate 32 7 ++ List.replicate 32 255 ++
        uint64_be GENESIS_TIMESTAMP : Bytes).length = 104 ∧
      compute_attestation_id (bytes_to_hex (List.replicate 32 0))
          (bytes_to_hex (List.replicate 32 7)) (bytes_to_hex (List.replicate 32 255))
          GENESIS_TIMESTAMP =
        bytes_to_hex (sha256_bytes (List.replicate 32 0 ++ List.replicate 32 7 ++
          List.replicate 32 255 ++ uint64_be GENESIS_TIMESTAMP)) :=
  have h := C2_attestation_id_layout (List.replicate 32 0) (List.replicate 32 7)
    (List.replicate 32 255) GENESIS_TIMESTAMP (by decide) (by decide) (by decide)
    (by decide) (by decide) (by decide) (by decide)
  ⟨h.1, h.2.1⟩

/-- C3: the proof is an Ed25519 signature (64 bytes) over exactly the
136-byte input `id ‖ subject ‖ BE64(time) ‖ refsHash ‖ canon`, and the
verifier's step 3 is Ed25519 verification of the stored proof over this very
input under the supplied public key. -/
theorem C3_signature_over_sign_input (ed : Ed) (hG : Ed.Good ed)
    (glr dom subjectText canonLabel : String) (t : Nat) (refs : List String) :
    let z := derive_zone ed glr dom
    let A := build_attestation ed z subjectText canonLabel t refs
    let si := build_signature_input A.id A.subject A.time (compute_refs_hash A.refs) A.canon
    si = hex_to_bytes A.id ++ hex_to_bytes A.subject ++ uint64_be A.time ++
        hex_to_bytes (compute_refs_hash A.refs) ++ hex_to_bytes A.canon ∧
      si.length = 136 ∧
      hex_to_bytes A.proof = ed.sign (hex_to_bytes z.private_key) si ∧
      (hex_to_bytes A.proof).length = 64 ∧
      (∀ att pk, (verify_attestation (some ed) att pk).valid =
        (zone_check att pk && id_check att &&
          ed.verify (hex_to_bytes pk)
            (build_signature_input att.id att.subject att.time
              (compute_refs_hash att.refs) att.canon)
            (hex_to_bytes att.proof))) := by
  intro z A si
  obtain ⟨hcorr, hpk_lt, hpk_len, hsig_lt, hsig_len⟩ := hG
  have hid : (hex_to_bytes A.id).length = 32 := by
    show (hex_to_bytes (sha256_hex_of_bytes _)).length = 32
    rw [sha256_hex_roundtrip]
    exact sha256_bytes_length _
  have hsub : (hex_to_bytes A.subject).length = 32 := hex_sha256_hex_length subjectText
  have hcan : (hex_to_bytes A.canon).length = 32 := hex_sha256_hex_length canonLabel
  have hrefs : (hex_to_bytes (compute_refs_hash A.refs)).length = 32 :=
    (hex_refs_hash_spec refs).1
  have hproof_rt : hex_to_bytes A.proof = ed.sign (hex_to_bytes z.private_key) si := by
    show hex_to_bytes (bytes_to_hex (ed.sign (hex_to_bytes z.private_key) si)) = _
    exact hex_roundtrip _ (hsig_lt _ _)
  refine ⟨rfl, ?_, hproof_rt, ?_, ?_⟩
  · show (hex_to_bytes A.id ++ hex_to_bytes A.subject ++ uint64_be A.time ++
      hex_to_bytes (compute_refs_hash A.refs) ++ hex_to_bytes A.canon).length = 136
    simp only [List.length_append, hid, hsub, hcan, hrefs, uint64_be, length_toBytesBE]
  · rw [hproof_rt]
    exact hsig_len _ _
  · intro att pk
    exact verify_attestation_some_valid ed att pk

/-- Witness for C3: the built genesis attestation's signature input is 136
bytes and its decoded proof is 64 bytes. -/
theorem C3_signature_over_sign_input_witness :
    (build_signature_input aW.id aW.subject aW.time (compute_refs_hash aW.refs)
        aW.canon).length = 136 ∧
      (hex_to_bytes aW.proof).length = 64 := by
  have h := C3_signature_over_sign_input edW edW_good GLR DOMAIN_SEPARATOR
    "From nothing, truth emerges" "raw:sha256:1.0" GENESIS_TIMESTAMP [GLR]
  exact ⟨h.2.1, h.2.2.2.1⟩

/-- C4: the refs hash is the root anchor (itself the SHA-256 of the empty
byte sequence) for an empty list, and otherwise the SHA-256 of the UTF-8
bytes of the refs joined with `"|"` after sorting them lexicographically —
stated via an arbitrary sorted rearrangement, which is unique. -/
theorem C4_refs_hash_rule (refs l : List String) (hne : refs ≠ [])
    (hs : List.Sorted refLe l) (hp : l.Perm refs) :
    compute_refs_hash [] = GLR ∧
      bytes_to_hex (sha256_bytes []) = GLR ∧
      compute_refs_hash refs = bytes_to_hex (sha256_bytes (utf8Bytes (joinRefs l))) := by
  refine ⟨rfl, by decide, ?_⟩
  unfold compute_refs_hash
  rw [if_neg hne, sortRefs_eq_of_sorted_perm hp hs]
  rfl

/-- Witness for C4: `["b", "a"]` hashes the join of the sorted list
`["a", "b"]`. -/
theorem C4_refs_hash_rule_witness :
    compute_refs_hash ["b", "a"] =
      bytes_to_hex (sha256_bytes (utf8Bytes (joinRefs ["a", "b"]))) :=
  (C4_refs_hash_rule ["b", "a"] ["a", "b"] (by decide) (by decide)
    (List.Perm.swap "b" "a" [])).2.2

/-- C5: with the Ed25519 capability present, the verifier runs the zone,
identifier and signature checks in that fixed order, short-circuits on the
first failure reporting exactly that check's error, and reports
`valid = true` exactly when all three pass. The step log shows the
short-circuit: one outcome when the zone check fails, two when the id check
fails, three otherwise. -/
theorem C5_verifier_order_and_short_circuit (ed : Ed) (att : Attestation) (pk : String) :
    (verify_attestation (some ed) att pk).valid =
        (zone_check att pk && id_check att && sig_check ed att pk) ∧
      (verify_attestation (some ed) att pk).error =
        (if zone_check att pk = false then some "Zone ID mismatch"
         else if id_check att = false then some "Attestation ID mismatch"
         else if sig_check ed att pk = false then some "Invalid signature"
         else none) ∧
      ((verify_attestation (some ed) att pk).steps.map StepOutcome.passed) =
        (if zone_check att pk = false then [false]
         else if id_check att = false then [true, false]
         else [true, true, sig_check ed att pk]) :=
  ⟨verify_attestation_some_valid ed att pk, verify_attestation_some_error ed att pk,
    verify_attestation_some_passed ed att pk⟩

/-- C8: identity derivation is deterministic — it is a pure function of the
public constant and domain label, with
`seed = SHA256(constant ‖ utf8(label))`, `privateKey = seed`,
`publicKey = Ed25519PublicKey(seed)` and `fingerprint = SHA256(publicKey)`;
the code's nullary `derive_genesis_zone` is this derivation at `GLR` and
`DOMAIN_SEPARATOR`. No randomness enters: the embedding takes no entropy
argument besides the constant. -/
theorem C8_derive_identity_deterministic (ed : Ed) (glr dom : String) :
    (derive_zone ed glr dom).seed =
        bytes_to_hex (sha256_bytes (hex_to_bytes glr ++ utf8Bytes dom)) ∧
      (derive_zone ed glr dom).private_key = (derive_zone ed glr dom).seed ∧
      (derive_zone ed glr dom).public_key =
        bytes_to_hex (ed.pk (sha256_bytes (hex_to_bytes glr ++ utf8Bytes dom))) ∧
      (derive_zone ed glr dom).zone_id =
        sha256_hex_of_bytes (ed.pk (sha256_bytes (hex_to_bytes glr ++ utf8Bytes dom))) ∧
      derive_zone ed glr dom = derive_zone ed glr dom ∧
      derive_genesis_zone (some ed) = derive_zone ed GLR DOMAIN_SEPARATOR :=
  ⟨rfl, rfl, rfl, rfl, rfl, rfl⟩

/-- C9: verification depends only on the attestation's own fields and the
supplied public key — two artifacts with the same attestation but different
(or differently-typed, e.g. absent) witness bundles verify identically. -/
theorem C9_witness_bundle_never_enters {W₁ W₂ : Type} (edOpt : Option Ed)
    (att : Attestation) (w₁ : W₁) (w₂ : W₂) (pk : String) :
    verify_artifact_attestation edOpt ⟨att, w₁⟩ pk =
      verify_artifact_attestation edOpt ⟨att, w₂⟩ pk := rfl

set_option maxRecDepth 100000 in
/-- C10: `compute_refs_hash` sorts but does not deduplicate: sorting
preserves multiplicities, `[r, r]` joins to a strictly longer string than
`[r]`, and at the concrete ref `GLR` the two hashes differ. -/
theorem C10_refs_not_deduplicated :
    (∀ refs r, (sortRefs refs).count r = refs.count r) ∧
      (∀ r : String, joinRefs (sortRefs [r, r]) ≠ joinRefs (sortRefs [r])) ∧
      compute_refs_hash [GLR, GLR] ≠ compute_refs_hash [GLR] := by
  refine ⟨sortRefs_count, ?_, by decide⟩
  intro r
  rw [sortRefs_pair_self]
  show (r ++ "|" ++ joinRefs [r]) ≠ joinRefs (sortRefs [r])
  have h1 : sortRefs [r] = [r] := rfl
  rw [h1]
  show (r ++ "|" ++ r) ≠ r
  intro h
  have hlen := congrArg String.length h
  rw [String.length_append, String.length_append] at hlen
  have hone : ("|" : String).length = 1 := rfl
  omega

/-- C6 counterexample: with no signing capability, the builder does NOT
fail — run on the code's own fallback zone it returns an attestation
(`Except.ok`), not the `SigningUnavailable` error the claim requires. -/
theorem C6_counterexample_builder_returns_ok :
    (create_genesis_attestation none (derive_genesis_zone none)).isOk = true ∧
      create_genesis_attestation none (derive_genesis_zone none) ≠
        Except.error CeremonyError.SigningUnavailable := by
  constructor
  · rfl
  · intro h
    exact Except.noConfusion h

/-- C6 amended: the signing primitive wrapper `sign_message` does fail with
`SigningUnavailable` when no capability is present, but
`create_genesis_attestation` never calls it on that branch: it still returns
an attestation, substituting the pre-computed proof constant. -/
theorem C6_amended_signing_unavailable :
    (∀ (message : Bytes) (sk : String),
        sign_message none message sk = .error .SigningUnavailable) ∧
      (∀ zone : ZoneInfo, ∃ att : Attestation,
        create_genesis_attestation none zone = .ok att ∧
          att.proof = PRECOMPUTED_PROOF) :=
  ⟨fun _ _ => rfl, fun _ => ⟨_, rfl, rfl⟩⟩

/-- C7 counterexample: flipping a bit of the identity fingerprint (`zone`)
does NOT make step 2 (the identifier check) fail — step 1 fails first: on
the concrete built attestation the verifier reports the zone mismatch after
a single logged step, and step 2 never runs. -/
theorem C7_counterexample_zone_flip_fails_step1 :
    (verify_attestation (some edW) { aW with zone := flipHex aW.zone 0 }
        zW.public_key).error = some "Zone ID mismatch" ∧
      (verify_attestation (some edW) { aW with zone := flipHex aW.zone 0 }
        zW.public_key).error ≠ some "Attestation ID mismatch" ∧
      (verify_attestation (some edW) { aW with zone := flipHex aW.zone 0 }
        zW.public_key).steps.length = 1 := by
  refine ⟨by decide, by decide, by decide⟩

set_option maxHeartbeats 1000000 in
/-- C7 (amended): for a validly built attestation `A` verified under the
identity's public key:
(1) flipping any single bit of `subject` changes the 104-byte id preimage,
and — whenever SHA-256 does not collide on the two preimages — the verifier
stops at step 2 with the id-mismatch error after two logged steps;
(2) likewise for `canon`;
(3) likewise for any of the 64 bits of `time`;
(4) flipping any single bit of the identity fingerprint (`zone`) makes
step 1, not step 2, fail: the zone-mismatch error after one logged step;
(5) flipping any single bit of `proof` changes the decoded signature while
steps 1 and 2 still pass (three logged steps, first two passed), and step 3
fails exactly when Ed25519 rejects the altered signature. -/
theorem C7_single_bit_flip_detection (ed : Ed) (hG : Ed.Good ed)
    (glr dom subjectText canonLabel : String) (t : Nat) (refs : List String) :
    let z := derive_zone ed glr dom
    let A := build_attestation ed z subjectText canonLabel t refs
    (∀ i, i < 256 →
      idPayload A.zone (flipHex A.subject i) A.canon A.time ≠
          idPayload A.zone A.subject A.canon A.time ∧
        (sha256_bytes (idPayload A.zone (flipHex A.subject i) A.canon A.time) ≠
            sha256_bytes (idPayload A.zone A.subject A.canon A.time) →
          (verify_attestation (some ed) { A with subject := flipHex A.subject i }
              z.public_key).error = some "Attestation ID mismatch" ∧
            (verify_attestation (some ed) { A with subject := flipHex A.subject i }
              z.public_key).valid = false ∧
            (verify_attestation (some ed) { A with subject := flipHex A.subject i }
              z.public_key).steps.length = 2)) ∧
      (∀ i, i < 256 →
        idPayload A.zone A.subject (flipHex A.canon i) A.time ≠
            idPayload A.zone A.subject A.canon A.time ∧
          (sha256_bytes (idPayload A.zone A.subject (flipHex A.canon i) A.time) ≠
              sha256_bytes (idPayload A.zone A.subject A.canon A.time) →
            (verify_attestation (some ed) { A with canon := flipHex A.canon i }
                z.public_key).error = some "Attestation ID mismatch" ∧
              (verify_attestation (some ed) { A with canon := flipHex A.canon i }
                z.public_key).valid = false ∧
              (verify_attestation (some ed) { A with canon := flipHex A.canon i }
                z.public_key).steps.length = 2)) ∧
      (∀ j, j < 64 → t < 2 ^ 64 →
        idPayload A.zone A.subject A.canon (t ^^^ (1 <<< j)) ≠
            idPayload A.zone A.subject A.canon A.time ∧
          (sha256_bytes (idPayload A.zone A.subject A.canon (t ^^^ (1 <<< j))) ≠
              sha256_bytes (idPayload A.zone A.subject A.canon A.time) →
            (verify_attestation (some ed) { A with time := t ^^^ (1 <<< j) }
                z.public_key).error = some "Attestation ID mismatch" ∧
              (verify_attestation (some ed) { A with time := t ^^^ (1 <<< j) }
                z.public_key).valid = false ∧
              (verify_attestation (some ed) { A with time := t ^^^ (1 <<< j) }
                z.public_key).steps.length = 2)) ∧
      (∀ i, i < 256 →
        (verify_attestation (some ed) { A with zone := flipHex A.zone i }
            z.public_key).error = some "Zone ID mismatch" ∧
          (verify_attestation (some ed) { A with zone := flipHex A.zone i }
            z.public_key).valid = false ∧
          (verify_attestation (some ed) { A with zone := flipHex A.zone i }
            z.public_key).steps.length = 1) ∧
      (∀ i, i < 512 →
        hex_to_bytes (flipHex A.proof i) ≠ hex_to_bytes A.proof ∧
          ((verify_attestation (some ed) { A with proof := flipHex A.proof i }
              z.public_key).steps.map StepOutcome.passed) =
            [true, true,
              sig_check ed { A with proof := flipHex A.proof i } z.public_key] ∧
          (sig_check ed { A with proof := flipHex A.proof i } z.public_key = false →
            (verify_attestation (some ed) { A with proof := flipHex A.proof i }
                z.public_key).error = some "Invalid signature" ∧
              (verify_attestation (some ed) { A with proof := flipHex A.proof i }
                z.public_key).valid = false)) := by
  intro z A
  obtain ⟨hz1, hid1, hsig1⟩ := checks_of_build ed hG glr dom subjectText canonLabel t refs
  obtain ⟨hcorr, hpk_lt, hpk_len, hsig_lt, hsig_len⟩ := hG
  have hsub_rt : hex_to_bytes A.subject = sha256_bytes (utf8Bytes subjectText) := by
    show hex_to_bytes (bytes_to_hex (sha256_bytes (utf8Bytes subjectText))) = _
    exact hex_roundtrip _ (sha256_bytes_lt _)
  have hcan_rt : hex_to_bytes A.canon = sha256_bytes (utf8Bytes canonLabel) := by
    show hex_to_bytes (bytes_to_hex (sha256_bytes (utf8Bytes canonLabel))) = _
    exact hex_roundtrip _ (sha256_bytes_lt _)
  have hzone_rt : hex_to_bytes A.zone =
      sha256_bytes (ed.pk (sha256_bytes (hex_to_bytes glr ++ utf8Bytes dom))) := by
    show hex_to_bytes (bytes_to_hex
      (sha256_bytes (ed.pk (sha256_bytes (hex_to_bytes glr ++ utf8Bytes dom))))) = _
    exact hex_roundtrip _ (sha256_bytes_lt _)
  refine ⟨?_, ?_, ?_, ?_, ?_⟩
  · -- (1) subject flip
    intro i hi
    have hflip := hex_flip_ne A.subject i _ hsub_rt (sha256_bytes_lt _)
      (by rw [sha256_bytes_length]; omega)
    refine ⟨idPayload_ne_of_subject _ _ _ _ _ hflip.2, fun hcoll => ?_⟩
    have hzf : zone_check { A with subject := flipHex A.subject i } z.public_key = true := hz1
    have hidf : id_check { A with subject := flipHex A.subject i } = false := by
      show (compute_attestation_id A.zone (flipHex A.subject i) A.canon A.time == A.id) = false
      apply beq_eq_false_iff_ne.mpr
      show bytes_to_hex (sha256_bytes (idPayload A.zone (flipHex A.subject i) A.canon A.time)) ≠
        bytes_to_hex (sha256_bytes (idPayload A.zone A.subject A.canon A.time))
      exact bytes_to_hex_ne (sha256_bytes_lt _) (sha256_bytes_lt _) hcoll
    exact verify_id_mismatch ed _ _ hzf hidf
  · -- (2) canon flip
    intro i hi
    have hflip := hex_flip_ne A.canon i _ hcan_rt (sha256_bytes_lt _)
      (by rw [sha256_bytes_length]; omega)
    refine ⟨idPayload_ne_of_canon _ _ _ _ _ hflip.2, fun hcoll => ?_⟩
    have hzf : zone_check { A with canon := flipHex A.canon i } z.public_key = true := hz1
    have hidf : id_check { A with canon := flipHex A.canon i } = false := by
      show (compute_attestation_id A.zone A.subject (flipHex A.canon i) A.time == A.id) = false
      apply beq_eq_false_iff_ne.mpr
      show bytes_to_hex (sha256_bytes (idPayload A.zone A.subject (flipHex A.canon i) A.time)) ≠
        bytes_to_hex (sha256_bytes (idPayload A.zone A.subject A.canon A.time))
      exact bytes_to_hex_ne (sha256_bytes_lt _) (sha256_bytes_lt _) hcoll
    exact verify_id_mismatch ed _ _ hzf hidf
  · -- (3) time flip
    intro j hj ht
    refine ⟨idPayload_ne_of_time _ _ _ ht (xor_bit_lt ht hj)
      (xor_ne_self (shiftLeft_one_ne_zero j)), fun hcoll => ?_⟩
    have hzf : zone_check { A with time := t ^^^ (1 <<< j) } z.public_key = true := hz1
    have hidf : id_check { A with time := t ^^^ (1 <<< j) } = false := by
      show (compute_attestation_id A.zone A.subject A.canon (t ^^^ (1 <<< j)) == A.id) = false
      apply beq_eq_false_iff_ne.mpr
      show bytes_to_hex (sha256_bytes (idPayload A.zone A.subject A.canon (t ^^^ (1 <<< j)))) ≠
        bytes_to_hex (sha256_bytes (idPayload A.zone A.subject A.canon A.time))
      exact bytes_to_hex_ne (sha256_bytes_lt _) (sha256_bytes_lt _) hcoll
    exact verify_id_mismatch ed _ _ hzf hidf
  · -- (4) zone flip: step 1 fails
    intro i hi
    have hflip := hex_flip_ne A.zone i _ hzone_rt (sha256_bytes_lt _)
      (by rw [sha256_bytes_length]; omega)
    have hzf : zone_check { A with zone := flipHex A.zone i } z.public_key = false := by
      show (sha256_hex_of_bytes (hex_to_bytes z.public_key) == flipHex A.zone i) = false
      apply beq_eq_false_iff_ne.mpr
      have hpk_rt : hex_to_bytes z.public_key =
          ed.pk (sha256_bytes (hex_to_bytes glr ++ utf8Bytes dom)) := by
        show hex_to_bytes (bytes_to_hex
          (ed.pk (sha256_bytes (hex_to_bytes glr ++ utf8Bytes dom)))) = _
        exact hex_roundtrip _ (hpk_lt _)
      rw [hpk_rt]
      show bytes_to_hex (sha256_bytes (ed.pk (sha256_bytes (hex_to_bytes glr ++ utf8Bytes dom)))) ≠
        flipHex A.zone i
      unfold flipHex
      rw [hzone_rt]
      apply bytes_to_hex_ne (sha256_bytes_lt _) (flipBit_lt _ _ (sha256_bytes_lt _))
      intro heq
      exact flipBit_ne _ i (by rw [sha256_bytes_length]; omega) heq.symm
    obtain ⟨he, hv, hl⟩ := verify_zone_mismatch ed _ _ hzf
    exact ⟨he, hv, hl⟩
  · -- (5) proof flip: step 2 still passes, step 3 decides
    intro i hi
    have hproof_rt : hex_to_bytes A.proof =
        ed.sign (hex_to_bytes z.private_key)
          (build_signature_input A.id A.subject A.time (compute_refs_hash A.refs) A.canon) := by
      show hex_to_bytes (bytes_to_hex (ed.sign (hex_to_bytes z.private_key) _)) = _
      exact hex_roundtrip _ (hsig_lt _ _)
    have hflip := hex_flip_ne A.proof i _ hproof_rt (hsig_lt _ _)
      (by rw [hsig_len]; omega)
    have hzf : zone_check { A with proof := flipHex A.proof i } z.public_key = true := hz1
    have hidf : id_check { A with proof := flipHex A.proof i } = true := hid1
    obtain ⟨hmap, hcond⟩ := verify_sig_branch ed _ _ hzf hidf
    exact ⟨hflip.2, hmap, hcond⟩

set_option maxRecDepth 1000000 in
set_option maxHeartbeats 2000000 in
/-- Witness for C7 (amended) at bit 0 of each field on the concrete genesis
attestation: subject flip is caught at step 2, zone flip at step 1, proof
flip at step 3. -/
theorem C7_single_bit_flip_detection_witness :
    (verify_attestation (some edW) { aW with subject := flipHex aW.subject 0 }
        zW.public_key).error = some "Attestation ID mismatch" ∧
      (verify_attestation (some edW) { aW with zone := flipHex aW.zone 0 }
        zW.public_key).valid = false ∧
      (verify_attestation (some edW) { aW with proof := flipHex aW.proof 0 }
        zW.public_key).error = some "Invalid signature" := by
  have h := C7_single_bit_flip_detection edW edW_good GLR DOMAIN_SEPARATOR
    "From nothing, truth emerges" "raw:sha256:1.0" GENESIS_TIMESTAMP [GLR]
  refine ⟨((h.1 0 (by decide)).2 (by decide)).1, (h.2.2.2.1 0 (by decide)).2.1,
    ((h.2.2.2.2 0 (by decide)).2.2 (by decide)).1⟩

end Glogos
